import Mathlib

set_option linter.unusedVariables false

/-!
Shallow embedding of the ChatList Provider Request Gateway
(src/network.py, src/prompt_improver.py, and the dispatcher
`RequestWorker.run` in src/main.py) together with theorems settling the
frozen claims about it.

Python strings are modelled as Lean `String`s and all the string
primitives the source uses (`strip`, `split`, `startswith`, `in`,
`lower`, slicing) are re-implemented below over `List Char` with plain
structural recursion, so that every definition evaluates inside the
kernel.  JSON parsing (`response.json()` / `json.loads`) is library
behaviour, not repository code: its outcome is carried as an
`Option Json` field of the modelled HTTP response (`none` = the body is
not valid JSON, i.e. `ValueError` from the parser).
-/

/-- Python whitespace characters stripped by `str.strip()` (ASCII range). -/
def pyWSb (c : Char) : Bool :=
  c = ' ' || c = '\t' || c = '\n' || c = '\r' || c = '\x0B' || c = '\x0C'

def stripChars (cs : List Char) : List Char :=
  ((cs.dropWhile pyWSb).reverse.dropWhile pyWSb).reverse

/-- Python `s.strip()`. -/
def pyStrip (s : String) : String := String.mk (stripChars s.toList)

/-- `pat` is a leading segment of the character list. -/
def isPre : List Char → List Char → Bool
  | [], _ => true
  | _ :: _, [] => false
  | p :: ps, c :: cs => p = c && isPre ps cs

/-- Python `s.startswith(pre)`. -/
def pyStarts (s pre : String) : Bool := isPre pre.toList s.toList

/-- Index of the first occurrence of `pat` in the haystack, if any. -/
def findSub (pat : List Char) : List Char → Option Nat
  | [] => if isPre pat [] then some 0 else none
  | c :: cs => if isPre pat (c :: cs) then some 0 else (findSub pat cs).map (· + 1)

/-- Python `pat in s` (substring containment). -/
def strContains (s pat : String) : Bool := (findSub pat.toList s.toList).isSome

/-- Worker for `pySplit`; the fuel bounds the number of separator hits. -/
def pySplitGo (pat : List Char) : Nat → List Char → List (List Char)
  | 0, cs => [cs]
  | fuel + 1, cs =>
    if pat.isEmpty then [cs]
    else
      match findSub pat cs with
      | none => [cs]
      | some i => cs.take i :: pySplitGo pat fuel (cs.drop (i + pat.length))

/-- Python `s.split(sep)` for a non-empty separator (all occurrences). -/
def pySplit (s sep : String) : List String :=
  (pySplitGo sep.toList (s.toList.length + 1) s.toList).map String.mk

/-- Python `s.split(sep, 1)` (at most one split). -/
def pySplitOnce (s sep : String) : List String :=
  match findSub sep.toList s.toList with
  | none => [s]
  | some i =>
    [String.mk (s.toList.take i), String.mk (s.toList.drop (i + sep.toList.length))]

/-- Python `str.lower()` on the character ranges the source exercises
(ASCII letters plus the Cyrillic block used by the diagnostics). -/
def pyLowerChar (c : Char) : Char :=
  if 'A' ≤ c && c ≤ 'Z' then Char.ofNat (c.toNat + 32)
  else if 0x410 ≤ c.toNat && c.toNat ≤ 0x42F then Char.ofNat (c.toNat + 32)
  else if c.toNat = 0x401 then Char.ofNat 0x451
  else c

/-- Python `s.lower()`. -/
def pyLower (s : String) : String := String.mk (s.toList.map pyLowerChar)

/-- Python slice `s[:n]`. -/
def pyTake (s : String) (n : Nat) : String := String.mk (s.toList.take n)

/-- Python slice `s[a:b]` (for `a ≤ b`). -/
def pySlice (s : String) (a b : Nat) : String :=
  String.mk ((s.toList.drop a).take (b - a))

/-- Python `line.startswith(tuple)`. -/
def startsWithAny (line : String) (ps : List String) : Bool :=
  ps.any (fun p => pyStarts line p)

/-- Parsed JSON values, as produced by `json.loads` / `response.json()`.
Numbers are carried as integers (no claim involves numeric payloads). -/
inductive Json where
  | null
  | bool (b : Bool)
  | num (n : Int)
  | str (s : String)
  | arr (elems : List Json)
  | obj (fields : List (String × Json))

mutual
def jsonBeq : Json → Json → Bool
  | .null, .null => true
  | .bool a, .bool b => a == b
  | .num a, .num b => a == b
  | .str a, .str b => a == b
  | .arr a, .arr b => jsonListBeq a b
  | .obj a, .obj b => jsonFieldsBeq a b
  | _, _ => false
def jsonListBeq : List Json → List Json → Bool
  | [], [] => true
  | x :: xs, y :: ys => jsonBeq x y && jsonListBeq xs ys
  | _, _ => false
def jsonFieldsBeq : List (String × Json) → List (String × Json) → Bool
  | [], [] => true
  | (k1, v1) :: xs, (k2, v2) :: ys => k1 == k2 && jsonBeq v1 v2 && jsonFieldsBeq xs ys
  | _, _ => false
end

instance : BEq Json := ⟨jsonBeq⟩

/-- First value bound to key `k` in a parsed JSON object (parsed Python
dicts have unique keys, so first-match lookup is exact). -/
def objFind (fs : List (String × Json)) (k : String) : Option Json :=
  (fs.find? (fun kv => kv.1 == k)).map (·.2)

/-- Minimal escaping used by `json.dumps` for the characters that can
occur in the modelled payloads. -/
def jsonEscChar (c : Char) : String :=
  if c = '"' then "\\\""
  else if c = '\\' then "\\\\"
  else if c = '\n' then "\\n"
  else if c = '\r' then "\\r"
  else if c = '\t' then "\\t"
  else String.mk [c]

def jsonEsc (s : String) : String := String.join (s.toList.map jsonEscChar)

mutual
/-- Models `json.dumps(..., ensure_ascii=False)` with default separators. -/
def jsonDumps : Json → String
  | .null => "null"
  | .bool true => "true"
  | .bool false => "false"
  | .num n => toString n
  | .str s => "\"" ++ jsonEsc s ++ "\""
  | .arr xs => "[" ++ jsonDumpsList xs ++ "]"
  | .obj fs => "\x7b" ++ jsonDumpsFields fs ++ "\x7d"
def jsonDumpsList : List Json → String
  | [] => ""
  | [x] => jsonDumps x
  | x :: y :: xs => jsonDumps x ++ ", " ++ jsonDumpsList (y :: xs)
def jsonDumpsFields : List (String × Json) → String
  | [] => ""
  | [(k, v)] => "\"" ++ jsonEsc k ++ "\": " ++ jsonDumps v
  | (k, v) :: y :: xs =>
    "\"" ++ jsonEsc k ++ "\": " ++ jsonDumps v ++ ", " ++ jsonDumpsFields (y :: xs)
end

/-- Models Python `str()` applied to a parsed JSON value (only the
scalar cases are reachable from the verified code paths). -/
def jsonPyStr : Json → String
  | .str s => s
  | .num n => toString n
  | .bool true => "True"
  | .bool false => "False"
  | .null => "None"
  | j => jsonDumps j

/-- Python exception kinds distinguished by the gateway.  `apiError` is
the repository's `network.APIError`; the others are builtins. -/
inductive PyError where
  | apiError (msg : String)
  | valueError (msg : String)
  | keyError (key : String)
  | indexError (msg : String)
  | typeError (msg : String)
deriving DecidableEq, Repr

/-- Python `str(e)` for the modelled exceptions (`str` of a `KeyError`
is the `repr` of the key). -/
def pyErrStr : PyError → String
  | .apiError m => m
  | .valueError m => m
  | .keyError k => "'" ++ k ++ "'"
  | .indexError m => m
  | .typeError m => m

/-- Python `type(e).__name__` for the modelled exceptions. -/
def pyErrTypeName : PyError → String
  | .apiError _ => "APIError"
  | .valueError _ => "ValueError"
  | .keyError _ => "KeyError"
  | .indexError _ => "IndexError"
  | .typeError _ => "TypeError"

/-- `models.Model` — one configured provider descriptor. -/
structure Model where
  id : Int
  name : String
  model_id : String
  api_url : String
  api_id : String
  is_active : Int := 1
deriving DecidableEq, Repr

/-- One raw HTTP response: status code, the `Content-Type` header
(`headers.get('Content-Type', '')`), the body text, and the outcome of
parsing the body as JSON (`none` = `response.json()` raises
`ValueError`). -/
structure HttpResponse where
  status_code : Nat
  content_type : String
  text : String
  json_parse : Option Json

/-- Outcome of one `requests.post` call: a response, a
`requests.exceptions.Timeout`, another `requests.exceptions.RequestException`
(with its `str`), or a `ValueError` raised by the request machinery
itself (the case the loop's outer `except ValueError` handler is for). -/
inductive AttemptResult where
  | success (resp : HttpResponse)
  | timeout
  | netError (msg : String)
  | valError (msg : String)

/-- The ambient secret store: environment-variable lookup (`os.getenv`). -/
abbrev EnvStore := String → Option String

/-- The network, abstracted: attempt index ↦ what `requests.post`
does on that attempt. -/
abbrev NetOracle := Nat → AttemptResult

/-! ## src/network.py : `BaseAPIClient` -/

/-- `BaseAPIClient._extract_error_from_html` (src/network.py:70-116).
Scans for known status substrings first, then tries to extract a short
`<title>`, then falls back to a generic check-URL-and-key message.  (The
`error_patterns` list in the source is built but never consulted.) -/
def extract_error_from_html (html_text : String) : String :=
  let html_lower := pyLower html_text
  if strContains html_text "404" || strContains html_lower "not found" then
    "Возможно, неправильный URL API (404 Not Found)"
  else if strContains html_text "401" || strContains html_lower "unauthorized" then
    "Проблема с аутентификацией (401 Unauthorized)"
  else if strContains html_text "403" || strContains html_lower "forbidden" then
    "Доступ запрещен (403 Forbidden)"
  else if strContains html_text "500" || strContains html_lower "internal server error" then
    "Ошибка сервера (500 Internal Server Error)"
  else if strContains html_lower "bad request" || strContains html_text "400" then
    "Неверный запрос (400 Bad Request)"
  else
    match findSub "<title>".toList html_text.toList with
    | none => "Проверьте правильность URL API и API-ключа"
    | some title_start =>
      match (findSub "</title>".toList (html_text.toList.drop title_start)).map (· + title_start) with
      | none => "Проверьте правильность URL API и API-ключа"
      | some title_end =>
        let title := pyStrip (pySlice html_text (title_start + 7) title_end)
        if title ≠ "" && title.length < 100 then "Заголовок страницы: " ++ title
        else "Проверьте правильность URL API и API-ключа"

/-- Python `needle not in j` evaluated on a parsed JSON value
(`TypeError` when the value is not a container or string). -/
def pyStrNotIn (needle : String) : Json → Except PyError Bool
  | .str s => .ok (!(strContains s needle))
  | .arr xs => .ok (!(xs.any (fun x => x == Json.str needle)))
  | .obj fs => .ok (!(fs.any (fun kv => kv.1 == needle)))
  | _ => .error (.typeError "argument is not iterable")

/-- The `message`-formatting step shared by the two dict branches of
`_extract_error_from_json`: prefix the status code unless it already
occurs in the message. -/
def fmtStatusMsg (status_code : Nat) (message : Json) : Except PyError String := do
  let notIn ← pyStrNotIn (toString status_code) message
  if notIn then pure ("(" ++ toString status_code ++ ") " ++ jsonPyStr message)
  else pure (jsonPyStr message)

/-- `BaseAPIClient._extract_error_from_json` (src/network.py:118-160).
`parsed` is the outcome of `json.loads(json_text)` (`none` = not valid
JSON).  A parse failure, or a parsed value that is not a dict, falls
through to the truncated-text fallback. -/
def extract_error_from_json (parsed : Option Json) (json_text : String)
    (status_code : Nat) : Except PyError String :=
  let fallback :=
    let error_text := if 200 < json_text.length then pyTake json_text 200 else json_text
    "(" ++ toString status_code ++ ") " ++ error_text
  match parsed with
  | some (.obj fs) =>
    let topLevel : Except PyError String :=
      match objFind fs "message" with
      | some message => fmtStatusMsg status_code message
      | none => .ok ("(" ++ toString status_code ++ ") " ++ pyTake (jsonDumps (.obj fs)) 200)
    match objFind fs "error" with
    | some (.obj efs) =>
      match objFind efs "message" with
      | some message => fmtStatusMsg status_code message
      | none => topLevel
    | _ => topLevel
  | _ => .ok fallback

/-- The aggregate exhaustion message raised after the retry loop
(src/network.py:266); an f-string renders an absent diagnostic as
`"None"`. -/
def aggMsg (max_retries : Nat) (last_error : Option String) : String :=
  "Запрос не удался после " ++ toString max_retries ++ " попыток: " ++
    (match last_error with
     | none => "None"
     | some s => s)

/-- One pass of the retry loop of `BaseAPIClient._make_request`
(src/network.py:181-266).  `fuel` counts the attempts left
(`max_retries - attempt`); the pair carries the result together with
the list of `time.sleep` durations performed, in order.  An `APIError`
raised inside the loop body — including the one the inner
`except ValueError` handler around `response.json()` converts a parse
failure into — is caught by none of the loop's own handlers and
escapes immediately. -/
def make_request_go (orc : NetOracle) (max_retries timeout : Nat) :
    Nat → Nat → Option String → Except PyError Json × List Nat
  | 0, _, last_error => (.error (.apiError (aggMsg max_retries last_error)), [])
  | fuel + 1, attempt, last_error =>
    match orc attempt with
    | .success resp =>
      if resp.status_code = 200 then
        let content_type := pyLower resp.content_type
        let response_text := pyStrip resp.text
        if response_text = "" then
          (.error (.apiError "Пустой ответ от сервера"), [])
        else
          let is_html := strContains content_type "text/html" ||
            pyStarts response_text "<!DOCTYPE" ||
            pyStarts response_text "<html" ||
            pyStarts response_text "<HTML"
          if is_html then
            (.error (.apiError ("Сервер вернул HTML вместо JSON. " ++
              extract_error_from_html response_text)), [])
          else
            match resp.json_parse with
            | some data => (.ok data, [])
            | none =>
              let error_text := if 200 < resp.text.length then pyTake resp.text 200 else resp.text
              (.error (.apiError ("Неверный формат ответа от сервера (не JSON): " ++
                pyTake error_text 100)), [])
      else if resp.status_code = 401 then
        (.error (.apiError "Неверный API-ключ"), [])
      else if resp.status_code = 429 then
        let wait_time := 2 ^ attempt
        let rest := make_request_go orc max_retries timeout fuel (attempt + 1) last_error
        (rest.1, wait_time :: rest.2)
      else
        let response_text := pyStrip resp.text
        let is_html := pyStarts response_text "<!DOCTYPE" ||
          pyStarts response_text "<html" ||
          pyStarts response_text "<HTML"
        if is_html then
          (.error (.apiError ("(" ++ toString resp.status_code ++ ") " ++
            extract_error_from_html response_text)), [])
        else
          match extract_error_from_json resp.json_parse response_text resp.status_code with
          | .ok error_msg => (.error (.apiError error_msg), [])
          | .error e => (.error e, [])
    | .timeout =>
      let le := some ("Таймаут запроса после " ++ toString timeout ++ "с")
      if attempt + 1 < max_retries then
        let rest := make_request_go orc max_retries timeout fuel (attempt + 1) le
        (rest.1, 1 :: rest.2)
      else
        make_request_go orc max_retries timeout fuel (attempt + 1) le
    | .netError m =>
      let le := some ("Ошибка сети: " ++ m)
      if attempt + 1 < max_retries then
        let rest := make_request_go orc max_retries timeout fuel (attempt + 1) le
        (rest.1, 1 :: rest.2)
      else
        make_request_go orc max_retries timeout fuel (attempt + 1) le
    | .valError m =>
      let le := some ("Ошибка парсинга ответа: " ++ m)
      if attempt + 1 < max_retries then
        let rest := make_request_go orc max_retries timeout fuel (attempt + 1) le
        (rest.1, 1 :: rest.2)
      else
        make_request_go orc max_retries timeout fuel (attempt + 1) le

/-- `BaseAPIClient._make_request` (src/network.py:162-266), with its
sleep trace.  `url`, `headers` and `payload` are recorded for fidelity
to the call shape; the sequence of responses they elicit is abstracted
by the oracle. -/
def make_request_trace (url : String) (headers : List (String × String))
    (payload : Json) (orc : NetOracle) (max_retries timeout : Nat) :
    Except PyError Json × List Nat :=
  make_request_go orc max_retries timeout max_retries 0 none

/-- The result component of `_make_request`. -/
def make_request_result (url : String) (headers : List (String × String))
    (payload : Json) (orc : NetOracle) (max_retries timeout : Nat) :
    Except PyError Json :=
  (make_request_trace url headers payload orc max_retries timeout).1

/-! ## src/network.py : concrete clients and `create_api_client` -/

/-- The four client classes of src/network.py. -/
inductive ClientKind where
  | openRouter
  | openAI
  | deepSeek
  | groq
deriving DecidableEq, Repr

/-- `create_api_client` (src/network.py:476-507): case-insensitive
substring dispatch on the API URL, defaulting to the OpenAI-compatible
client. -/
def create_api_client_kind (m : Model) : ClientKind :=
  let api_url_lower := pyLower m.api_url
  if strContains api_url_lower "openrouter" then .openRouter
  else if strContains api_url_lower "openai" || strContains api_url_lower "api.openai.com" then .openAI
  else if strContains api_url_lower "deepseek" then .deepSeek
  else if strContains api_url_lower "groq" then .groq
  else .openAI

/-- Request headers built by each client's `send_request`. -/
def clientHeaders (kind : ClientKind) (api_key : String) : List (String × String) :=
  match kind with
  | .openRouter =>
    [("Authorization", "Bearer " ++ api_key), ("Content-Type", "application/json"),
     ("HTTP-Referer", "https://github.com/yourusername/ChatList"), ("X-Title", "ChatList")]
  | _ =>
    [("Authorization", "Bearer " ++ api_key), ("Content-Type", "application/json")]

/-- The OpenAI-compatible chat payload built by every client. -/
def chatPayload (model_id prompt : String) : Json :=
  .obj [("model", .str model_id),
        ("messages", .arr [.obj [("role", .str "user"), ("content", .str prompt)]])]

/-- The invalid-shape message each client raises when `choices` is
absent or empty (the OpenAI client uses the English wording). -/
def clientInvalidMsg : ClientKind → String
  | .openAI => "Invalid response format from API"
  | _ => "Неверный формат ответа от API"

/-- The wrapper prefix each client's catch-all handler uses for
non-`APIError` exceptions. -/
def clientWrapMsg : ClientKind → String
  | .openAI => "Error sending request: "
  | _ => "Ошибка отправки запроса: "

/-- Python `"choices" in response_data` on the parsed response. -/
def pyInJson (key : String) : Json → Except PyError Bool
  | .obj fs => .ok (fs.any (fun kv => kv.1 == key))
  | .arr xs => .ok (xs.any (fun x => x == Json.str key))
  | .str s => .ok (strContains s key)
  | _ => .error (.typeError "argument is not iterable")

/-- Python `j[key]` subscription with a string key. -/
def pyIndexStr (j : Json) (key : String) : Except PyError Json :=
  match j with
  | .obj fs =>
    match objFind fs key with
    | some v => .ok v
    | none => .error (.keyError key)
  | .arr _ => .error (.typeError "list indices must be integers or slices, not str")
  | .str _ => .error (.typeError "string indices must be integers")
  | _ => .error (.typeError "object is not subscriptable")

/-- Python `j[i]` subscription with an integer index. -/
def pyIndexNat (j : Json) (i : Nat) : Except PyError Json :=
  match j with
  | .arr xs =>
    match xs.get? i with
    | some v => .ok v
    | none => .error (.indexError "list index out of range")
  | .obj _ => .error (.keyError (toString i))
  | .str s =>
    match s.toList.get? i with
    | some c => .ok (.str (String.mk [c]))
    | none => .error (.indexError "string index out of range")
  | _ => .error (.typeError "object is not subscriptable")

/-- Python `len(j)`. -/
def pyLen : Json → Except PyError Nat
  | .arr xs => .ok xs.length
  | .obj fs => .ok fs.length
  | .str s => .ok s.toList.length
  | _ => .error (.typeError "object has no len")

/-- The shared response-shape extraction of every client's
`send_request` (e.g. src/network.py:315-318): if `"choices" in
response_data and len(response_data["choices"]) > 0`, return
`response_data["choices"][0]["message"]["content"]`, else raise the
invalid-format `APIError`. -/
def parse_chat_response (invalidMsg : String) (response_data : Json) :
    Except PyError Json :=
  match pyInJson "choices" response_data with
  | .error e => .error e
  | .ok hasChoices =>
    let nonEmptyCheck : Except PyError Bool :=
      if hasChoices then
        match pyIndexStr response_data "choices" with
        | .error e => .error e
        | .ok cs =>
          match pyLen cs with
          | .error e => .error e
          | .ok n => .ok (decide (0 < n))
      else .ok false
    match nonEmptyCheck with
    | .error e => .error e
    | .ok true =>
      match pyIndexStr response_data "choices" with
      | .error e => .error e
      | .ok cs =>
        match pyIndexNat cs 0 with
        | .error e => .error e
        | .ok c0 =>
          match pyIndexStr c0 "message" with
          | .error e => .error e
          | .ok message => pyIndexStr message "content"
    | .ok false => .error (.apiError invalidMsg)

/-- `send_request` of the selected client (src/network.py:274-473):
`_make_request` on the built URL/headers/payload, then response-shape
extraction, with the catch-all that re-raises `APIError`s and wraps any
other exception into one. -/
def send_request (kind : ClientKind) (api_key : String) (m : Model)
    (prompt : String) (orc : NetOracle) (timeout max_retries : Nat) :
    Except PyError Json :=
  let url := m.api_url
  let headers := clientHeaders kind api_key
  let payload := chatPayload m.model_id prompt
  let inner : Except PyError Json :=
    match make_request_result url headers payload orc max_retries timeout with
    | .error e => .error e
    | .ok response_data => parse_chat_response (clientInvalidMsg kind) response_data
  match inner with
  | .ok v => .ok v
  | .error (.apiError msg) => .error (.apiError msg)
  | .error e => .error (.apiError (clientWrapMsg kind ++ pyErrStr e))

/-- `BaseAPIClient.__init__` credential resolution (src/network.py:36-53):
`os.getenv(model.api_id)`; `None` or an empty value raises
`ValueError(f"API key not found for {model.api_id}")`. -/
def clientInit (env : EnvStore) (m : Model) : Except PyError String :=
  match env m.api_id with
  | none => .error (.valueError ("API key not found for " ++ m.api_id))
  | some api_key =>
    if api_key = "" then .error (.valueError ("API key not found for " ++ m.api_id))
    else .ok api_key

/-- `send_prompt_to_model` (src/network.py:510-529): select and
construct the client (which resolves the credential), then send. -/
def send_prompt_to_model (env : EnvStore) (m : Model) (prompt : String)
    (orc : NetOracle) (timeout max_retries : Nat) : Except PyError Json :=
  match clientInit env m with
  | .error e => .error e
  | .ok api_key => send_request (create_api_client_kind m) api_key m prompt orc timeout max_retries

/-! ## src/main.py : `RequestWorker.run` (the dispatcher) -/

/-- The payload of one `finished` signal: `(model_id, model_name,
api_id, response-or-error text)`. -/
structure DispatchOutcome where
  model_id : Int
  model_name : String
  api_id : String
  text : String
deriving DecidableEq, Repr

/-- The per-provider exception boundary of `RequestWorker.run`
(src/main.py:65-79): a successful response is emitted as-is, an
`APIError` as its message, a `ValueError` with the configuration-error
prefix, and anything else with the generic prefix (falling back to the
exception's type name when its `str` is empty). -/
def worker_outcome_text (res : Except PyError Json) : String :=
  match res with
  | .ok response => jsonPyStr response
  | .error (.apiError e) => pyErrStr (.apiError e)
  | .error (.valueError e) => "Ошибка конфигурации: " ++ pyErrStr (.valueError e)
  | .error e =>
    let error_msg := if pyErrStr e = "" then pyErrTypeName e else pyErrStr e
    "Ошибка: " ++ error_msg

/-- The outcome the worker emits for one provider. -/
def outcomeOf (env : EnvStore) (prompt : String) (timeout max_retries : Nat)
    (pr : Model × NetOracle) : DispatchOutcome :=
  ⟨pr.1.id, pr.1.name, pr.1.api_id,
    worker_outcome_text (send_prompt_to_model env pr.1 prompt pr.2 timeout max_retries)⟩

/-- The loop body of `RequestWorker.run` (src/main.py:59-81): one
provider at a time, in submission order; after each outcome a
`progress(idx + 1, total)` signal is emitted. -/
def worker_run_go (env : EnvStore) (prompt : String) (timeout max_retries total : Nat) :
    List (Model × NetOracle) → Nat → List DispatchOutcome × List (Nat × Nat)
  | [], _ => ([], [])
  | pr :: rest, idx =>
    let out := outcomeOf env prompt timeout max_retries pr
    let tail := worker_run_go env prompt timeout max_retries total rest (idx + 1)
    (out :: tail.1, (idx + 1, total) :: tail.2)

/-- `RequestWorker.run`: the emitted `finished` payloads in order,
paired with the emitted `progress` pairs in order. -/
def worker_run (env : EnvStore) (prompt : String) (timeout max_retries : Nat)
    (batch : List (Model × NetOracle)) : List DispatchOutcome × List (Nat × Nat) :=
  worker_run_go env prompt timeout max_retries batch.length batch 0

/-! ## src/prompt_improver.py : `PromptImprover` -/

/-- The improvement markers scanned by `_extract_improved_prompt`
(src/prompt_improver.py:282-288). -/
def improvedMarkers : List String :=
  ["УЛУЧШЕННАЯ ВЕРСИЯ:", "Улучшенная версия:", "Улучшенный промт:",
   "Исправленный промт:", "Улучшенная:"]

/-- The marker loop of `_extract_improved_prompt`
(src/prompt_improver.py:290-300): take everything after the first
matching marker (maxsplit 1), cut at `"ВАРИАНТЫ:"` when present, and
accept the remainder only when non-empty — otherwise try the next
marker. -/
def tryMarkers (response_clean : String) : List String → Option String
  | [] => none
  | marker :: rest =>
    if strContains response_clean marker then
      let parts := pySplitOnce response_clean marker
      if 1 < parts.length then
        let improved := pyStrip (parts.getD 1 "")
        let improved :=
          if strContains improved "ВАРИАНТЫ:" then
            pyStrip ((pySplit improved "ВАРИАНТЫ:").getD 0 "")
          else improved
        if improved ≠ "" then some improved else tryMarkers response_clean rest
      else tryMarkers response_clean rest
    else tryMarkers response_clean rest

/-- The list-bullet tuple of `_extract_improved_prompt`
(src/prompt_improver.py:309). -/
def bulletStarts : List String := ["1.", "2.", "3.", "-", "*"]

/-- The first line longer than 20 characters that does not begin with a
list-bullet (src/prompt_improver.py:306-310). -/
def firstSubstantial : List String → Option String
  | [] => none
  | line :: rest =>
    if 20 < line.length && !(startsWithAny line bulletStarts) then some line
    else firstSubstantial rest

/-- `PromptImprover._extract_improved_prompt`
(src/prompt_improver.py:269-317). -/
def extract_improved_prompt (response original_prompt : String) : String :=
  let response_clean := pyStrip response
  match tryMarkers response_clean improvedMarkers with
  | some improved => improved
  | none =>
    let lines := pySplit response_clean "\n"
    let non_empty_lines := (lines.map pyStrip).filter (fun l => l ≠ "")
    match firstSubstantial non_empty_lines with
    | some line => line
    | none =>
      if response_clean ≠ original_prompt && 10 < response_clean.length then response_clean
      else original_prompt

/-- The regex `^\d+[\.\)]\s*(.+)$` applied by `re.match` to a stripped
line: leading ASCII digits, a dot or closing parenthesis, optional
whitespace, then a non-empty remainder (the capture).  On stripped
lines the greedy quantifiers and regex backtracking coincide with this
direct reading. -/
def matchNumbered (line : String) : Option String :=
  let cs := line.toList
  let ds := cs.takeWhile Char.isDigit
  if ds.isEmpty then none
  else
    match cs.drop ds.length with
    | [] => none
    | p :: rest =>
      if p = '.' || p = ')' then
        let body := rest.dropWhile pyWSb
        if body.isEmpty then none else some (String.mk body)
      else none

/-- The regexes `^-\s*(.+)$` and `^\*\s*(.+)$` (hyphen / asterisk
bullet) applied by `re.match` to a stripped line. -/
def matchBullet (b : Char) (line : String) : Option String :=
  match line.toList with
  | [] => none
  | c :: rest =>
    if c = b then
      let body := rest.dropWhile pyWSb
      if body.isEmpty then none else some (String.mk body)
    else none

/-- The accept test of the pattern loop (src/prompt_improver.py:355-361):
a captured text is kept only when, stripped, it is non-empty and longer
than 5 characters; a match failing the test falls through to the next
pattern. -/
def acceptMatch (g : Option String) : Option String :=
  match g with
  | some captured =>
    let variant_text := pyStrip captured
    if variant_text ≠ "" && 5 < variant_text.length then some variant_text else none
  | none => none

/-- The ordered pattern cascade applied to one stripped line. -/
def lineVariantPick (line : String) : Option String :=
  match acceptMatch (matchNumbered line) with
  | some t => some t
  | none =>
    match acceptMatch (matchBullet '-' line) with
    | some t => some t
    | none => acceptMatch (matchBullet '*' line)

/-- The first collection pass of `_extract_variants`
(src/prompt_improver.py:348-361): every line that matches a pattern
with an acceptable capture contributes one variant, in order. -/
def collectPatternVariants : List String → List String → List String
  | [], variants => variants
  | l :: rest, variants =>
    let line := pyStrip l
    if line = "" then collectPatternVariants rest variants
    else
      match lineVariantPick line with
      | some t => collectPatternVariants rest (variants ++ [t])
      | none => collectPatternVariants rest variants

/-- The section-marker prefixes excluded by the fallback pass
(src/prompt_improver.py:369). -/
def variantSectionStarts : List String := ["УЛУЧШЕННАЯ", "ВАРИАНТЫ", "Варианты"]

/-- The fallback pass of `_extract_variants`
(src/prompt_improver.py:363-371): collect every stripped line longer
than 10 characters that is not a section marker and not already
collected (the loop itself imposes no count bound). -/
def fallbackCollect : List String → List String → List String
  | variants, [] => variants
  | variants, l :: rest =>
    let line := pyStrip l
    if line ≠ "" && 10 < line.length && !(startsWithAny line variantSectionStarts)
        && !(variants.contains line) then
      fallbackCollect (variants ++ [line]) rest
    else
      fallbackCollect variants rest

/-- `PromptImprover._extract_variants` (src/prompt_improver.py:319-374). -/
def extract_variants (response : String) (num_variants : Nat) : List String :=
  let response_clean := pyStrip response
  let variants_section :=
    if strContains response_clean "ВАРИАНТЫ:" then
      pyStrip ((pySplit response_clean "ВАРИАНТЫ:").getD 1 "")
    else if strContains response_clean "Варианты:" then
      pyStrip ((pySplit response_clean "Варианты:").getD 1 "")
    else response_clean
  let lines := pySplit variants_section "\n"
  let variants := collectPatternVariants lines []
  let variants :=
    if variants.length < num_variants then fallbackCollect variants lines
    else variants
  if variants.isEmpty then [] else variants.take num_variants

/-- The `"improved"`/`"variants"` result of
`PromptImprover._parse_combined_response`; the initial `None` for
`"improved"` is overwritten on both branches, so the field is a plain
string. -/
structure CombinedResult where
  improved : String
  variants : List String
deriving DecidableEq, Repr

/-- `PromptImprover._parse_combined_response`
(src/prompt_improver.py:376-412).  Note the improved-section split here
uses no maxsplit, so with a repeated marker only the segment up to its
next occurrence is taken. -/
def parse_combined_response (response original_prompt : String) : CombinedResult :=
  let response_clean := pyStrip response
  let improved :=
    if strContains response_clean "УЛУЧШЕННАЯ ВЕРСИЯ:" then
      let improved_section := (pySplit response_clean "УЛУЧШЕННАЯ ВЕРСИЯ:").getD 1 ""
      let improved_section :=
        if strContains improved_section "ВАРИАНТЫ:" then
          (pySplit improved_section "ВАРИАНТЫ:").getD 0 ""
        else improved_section
      pyStrip improved_section
    else
      extract_improved_prompt response_clean original_prompt
  let variants :=
    if strContains response_clean "ВАРИАНТЫ:" then
      extract_variants (pyStrip ((pySplit response_clean "ВАРИАНТЫ:").getD 1 "")) 3
    else
      extract_variants response_clean 3
  ⟨improved, variants⟩

/-- The clamp at the top of `PromptImprover.generate_variants`
(src/prompt_improver.py:72-76): the requested count is coerced into
`[2, 3]` before the request is built or the response parsed. -/
def generate_variants_clamp (num_variants : Int) : Int :=
  if num_variants < 2 then 2
  else if 3 < num_variants then 3
  else num_variants

/-- `PromptImprover._create_variants_prompt`
(src/prompt_improver.py:171-190): the request text, carrying the
(already clamped) variant count. -/
def create_variants_prompt (original_prompt : String) (num_variants : Int) : String :=
  "Создай " ++ toString num_variants ++
  " альтернативных варианта следующего промта, переформулировав его разными способами, но сохраняя основную суть.\n\nИсходный промт:\n" ++
  original_prompt ++
  "\n\nВерни " ++ toString num_variants ++
  " варианта, каждый на отдельной строке, пронумеровав их как:\n1. [первый вариант]\n2. [второй вариант]\n3. [третий вариант] (если нужно)\n\nТолько варианты, без дополнительных объяснений."

/-- `PromptImprover.generate_variants` (src/prompt_improver.py:60-92)
on its success path: clamp the requested count, build the request from
the clamped count, obtain the model's answer (`respond` abstracts
`network.send_prompt_to_model`; a raised exception would be re-raised
unchanged), and extract at most the clamped number of variants. -/
def generate_variants_model (original_prompt : String) (respond : String → String)
    (num_variants : Int) : List String :=
  let nv := generate_variants_clamp num_variants
  let variants_prompt := create_variants_prompt original_prompt nv
  let response := respond variants_prompt
  extract_variants response nv.toNat

/-! ## Theorems settling the claims -/

/-- An attempt that comes back as an HTTP 429 response. -/
def is429 : AttemptResult → Bool
  | .success resp => resp.status_code == 429
  | _ => false

/-- Retry-loop invariant for an all-429 run: every remaining attempt
sleeps `2 ^ attempt` seconds and recurses without recording a
diagnostic, so exhaustion reports the incoming `last_error`. -/
theorem make_request_go_all429 (orc : NetOracle) (mr t : Nat)
    (h : ∀ i, i < mr → is429 (orc i) = true) :
    ∀ (fuel attempt : Nat) (le : Option String), attempt + fuel = mr →
      make_request_go orc mr t fuel attempt le =
        (.error (.apiError (aggMsg mr le)),
         (List.range' attempt fuel).map (fun i => 2 ^ i)) := by
  intro fuel
  induction fuel with
  | zero => intro attempt le hsum; simp [make_request_go]
  | succ fl ih =>
    intro attempt le hsum
    have hlt : attempt < mr := by omega
    have h429 := h attempt hlt
    cases horc : orc attempt with
    | success resp =>
      rw [horc] at h429
      have hsc : resp.status_code = 429 := by simpa [is429] using h429
      simp only [make_request_go, horc, hsc]
      rw [ih (attempt + 1) le (by omega)]
      simp [List.range']
    | timeout => rw [horc] at h429; simp [is429] at h429
    | netError m => rw [horc] at h429; simp [is429] at h429
    | valError m => rw [horc] at h429; simp [is429] at h429

/-- C2: when every attempt of a request receives HTTP 429, the retry
engine sleeps `2 ^ attemptIndex` seconds after each 429 (1s, 2s, 4s, …),
consumes all `maxRetries` attempts, and then fails with the aggregate
`APIError` built from the attempt count and the last recorded
diagnostic — which, 429 handling recording none, an f-string renders as
`"None"`, so the message is exactly `aggMsg maxRetries none`. -/
theorem c2_rate_limit_backoff (url : String) (headers : List (String × String))
    (payload : Json) (orc : NetOracle) (mr t : Nat)
    (h : ∀ i, i < mr → is429 (orc i) = true) :
    make_request_trace url headers payload orc mr t =
      (.error (.apiError (aggMsg mr none)),
       (List.range mr).map (fun i => 2 ^ i)) := by
  have hgo := make_request_go_all429 orc mr t h mr 0 none (by omega)
  rw [List.range_eq_range']
  exact hgo

/-- An oracle whose every attempt is rate-limited. -/
def orc429 : NetOracle := fun _ => .success ⟨429, "", "rate limited", none⟩

/-- Witness for C2 at a concrete all-429 run with three attempts. -/
theorem c2_rate_limit_backoff_witness :
    make_request_trace "https://api.example.com/v1" [] .null orc429 3 30 =
      (.error (.apiError "Запрос не удался после 3 попыток: None"), [1, 2, 4]) :=
  (c2_rate_limit_backoff "https://api.example.com/v1" [] .null orc429 3 30
    (fun _ _ => rfl)).trans rfl

/-- An oracle whose every attempt returns status 200 with a body that is
neither HTML nor valid JSON. -/
def orcMal : NetOracle := fun _ => .success ⟨200, "application/json", "not a json body", none⟩

/-- C3 counterexample: on a 200 response with a malformed (non-HTML,
non-JSON) body, `_make_request` performs no sleep and no retry at all —
the inner `except ValueError` handler around `response.json()` raises an
`APIError`, which none of the loop's own handlers catch — contradicting
the claimed fixed 1-second-sleep-and-retry policy (which would have
produced sleeps `[1, 1]` over three attempts and an aggregate
exhaustion message). -/
theorem c3_counterexample :
    make_request_trace "https://api.example.com/v1" [] .null orcMal 3 30 =
      (.error (.apiError "Неверный формат ответа от сервера (не JSON): not a json body"), [])
    ∧ (make_request_trace "https://api.example.com/v1" [] .null orcMal 3 30).2 ≠ [1, 1] :=
  ⟨rfl, by decide⟩

/-- C3 amended: a first-attempt 200 response whose body is neither HTML
nor valid JSON makes `_make_request` fail immediately — no sleep, no
further attempt — with the `APIError` carrying the first 100 characters
of the body, unlike timeouts and network-level errors (which sleep a
fixed 1 second and retry). -/
theorem c3_malformed_body_fails_fast (url : String) (headers : List (String × String))
    (payload : Json) (orc : NetOracle) (mr t : Nat) (resp : HttpResponse)
    (hmr : 0 < mr) (h0 : orc 0 = .success resp) (hsc : resp.status_code = 200)
    (hne : pyStrip resp.text ≠ "")
    (hnh : (strContains (pyLower resp.content_type) "text/html" ||
            pyStarts (pyStrip resp.text) "<!DOCTYPE" ||
            pyStarts (pyStrip resp.text) "<html" ||
            pyStarts (pyStrip resp.text) "<HTML") = false)
    (hjson : resp.json_parse = none) :
    make_request_trace url headers payload orc mr t =
      (.error (.apiError ("Неверный формат ответа от сервера (не JSON): " ++
        pyTake (if 200 < resp.text.length then pyTake resp.text 200 else resp.text) 100)), []) := by
  obtain ⟨k, rfl⟩ : ∃ k, mr = k + 1 := ⟨mr - 1, by omega⟩
  simp only [make_request_trace, make_request_go, h0, hsc, hjson]
  simp [hne, hnh]

/-- Witness for the amended C3 at a concrete malformed-body response. -/
theorem c3_malformed_body_fails_fast_witness :
    make_request_trace "https://api.example.com/v1" [] .null orcMal 2 5 =
      (.error (.apiError "Неверный формат ответа от сервера (не JSON): not a json body"), []) :=
  (c3_malformed_body_fails_fast "https://api.example.com/v1" [] .null orcMal 2 5
    ⟨200, "application/json", "not a json body", none⟩
    (by decide) rfl rfl (by decide) (by decide) rfl).trans rfl

/-- An oracle returning a 200 response with `text/html` content-type and
an all-whitespace body. -/
def orcHtmlEmpty : NetOracle := fun _ => .success ⟨200, "text/html", "", none⟩

/-- C5 counterexample: a status-200 response whose content-type contains
`text/html` but whose trimmed body is empty is not classified as
ServerHTML — the empty-body check fires first and produces the
empty-response `APIError`, not the HTML-diagnostic message. -/
theorem c5_counterexample :
    strContains (pyLower "text/html") "text/html" = true
    ∧ make_request_trace "https://api.example.com/v1" [] .null orcHtmlEmpty 3 30 =
        (.error (.apiError "Пустой ответ от сервера"), [])
    ∧ ("Пустой ответ от сервера" : String) ≠
        "Сервер вернул HTML вместо JSON. " ++ extract_error_from_html (pyStrip "") :=
  ⟨rfl, rfl, by decide⟩

/-- C5 amended: a first-attempt 200 response with a non-empty trimmed
body whose content-type contains `text/html` or whose trimmed body
starts with `<!DOCTYPE`, `<html` or `<HTML` is treated as
server-returned HTML: the result is the `APIError` built by the
HTML-diagnostic extraction (`extract_error_from_html`: known status
substrings, then a short `<title>`, then the generic check-URL-and-key
message).  The conclusion does not depend on `resp.json_parse`, i.e.
the body is never parsed as JSON. -/
theorem c5_server_html (url : String) (headers : List (String × String))
    (payload : Json) (orc : NetOracle) (mr t : Nat) (resp : HttpResponse)
    (hmr : 0 < mr) (h0 : orc 0 = .success resp) (hsc : resp.status_code = 200)
    (hne : pyStrip resp.text ≠ "")
    (hh : (strContains (pyLower resp.content_type) "text/html" ||
           pyStarts (pyStrip resp.text) "<!DOCTYPE" ||
           pyStarts (pyStrip resp.text) "<html" ||
           pyStarts (pyStrip resp.text) "<HTML") = true) :
    make_request_trace url headers payload orc mr t =
      (.error (.apiError ("Сервер вернул HTML вместо JSON. " ++
        extract_error_from_html (pyStrip resp.text))), []) := by
  obtain ⟨k, rfl⟩ : ∃ k, mr = k + 1 := ⟨mr - 1, by omega⟩
  simp only [make_request_trace, make_request_go, h0, hsc]
  simp [hne, hh]

/-- An oracle returning a 200 HTML page (with a JSON-parse oracle value
present, to exhibit that it is ignored). -/
def orcHtml : NetOracle :=
  fun _ => .success ⟨200, "text/html", "<html><body>x</body></html>", some (.str "ignored")⟩

/-- Witness for the amended C5 at a concrete HTML response. -/
theorem c5_server_html_witness :
    make_request_trace "https://api.example.com/v1" [] .null orcHtml 3 30 =
      (.error (.apiError
        "Сервер вернул HTML вместо JSON. Проверьте правильность URL API и API-ключа"), []) :=
  (c5_server_html "https://api.example.com/v1" [] .null orcHtml 3 30
    ⟨200, "text/html", "<html><body>x</body></html>", some (.str "ignored")⟩
    (by decide) rfl rfl (by decide) (by decide)).trans rfl

/-- The combined response named by C6, with the markers the code
actually scans for (`"УЛУЧШЕННАЯ ВЕРСИЯ:"` / `"ВАРИАНТЫ:"` are what the
spec renders as `IMPROVED VERSION:` / `VARIANTS:`). -/
def combinedResp : String := "УЛУЧШЕННАЯ ВЕРСИЯ:\nFoo.\n\nВАРИАНТЫ:\n1. A\n2. B\n3. C"

/-- C6 counterexample: the well-formed combined response does not parse
to `improved="Foo."`, `variants=["A","B","C"]` — the numbered items are
matched but each captured text (`"A"`, `"B"`, `"C"`, one character) is
rejected by the strictly-more-than-5-characters minimum, and the
fallback line collection rejects the 4-character lines too. -/
theorem c6_counterexample :
    parse_combined_response combinedResp "orig" ≠ ⟨"Foo.", ["A", "B", "C"]⟩ := by
  decide

/-- C6 amended: the combined response parses to `improved="Foo."` and
`variants=[]` (the single-character variants fall below the 5-character
capture minimum and the 10-character fallback minimum). -/
theorem c6_combined_parse :
    parse_combined_response combinedResp "orig" = ⟨"Foo.", []⟩ := rfl

/-- A marker-free scan returns `none`. -/
theorem tryMarkers_none (rc : String) :
    ∀ ms : List String, (∀ m ∈ ms, strContains rc m = false) →
      tryMarkers rc ms = none := by
  intro ms
  induction ms with
  | nil => intro _; rfl
  | cons m rest ih =>
    intro h
    have hm := h m (by simp)
    simp only [tryMarkers, hm, Bool.false_eq_true, if_false]
    exact ih (fun x hx => h x (by simp [hx]))

/-- No line of length over 20 means no substantial line is found. -/
theorem firstSubstantial_none (ls : List String) (h : ∀ l ∈ ls, l.length ≤ 20) :
    firstSubstantial ls = none := by
  induction ls with
  | nil => rfl
  | cons l rest ih =>
    have hl : ¬ (20 < l.length) := by have := h l (by simp); omega
    simp only [firstSubstantial]
    rw [if_neg (by simp [hl])]
    exact ih (fun x hx => h x (by simp [hx]))

/-- C7 counterexample: a response containing none of the improvement
markers and no line longer than 20 characters is *not* returned as the
original prompt when it differs from the original and is longer than 10
characters — the whole trimmed response is returned instead. -/
theorem c7_counterexample :
    improvedMarkers.all (fun m => !(strContains (pyStrip "hello world foo") m)) = true
    ∧ (pySplit (pyStrip "hello world foo") "\n").all
        (fun l => decide ((pyStrip l).length ≤ 20)) = true
    ∧ extract_improved_prompt "hello world foo" "x" ≠ "x" := by
  refine ⟨by decide, by decide, by decide⟩

/-- C7 amended: a response containing none of the improvement markers
and no non-empty line longer than 20 characters is returned as the
original prompt unchanged, provided additionally the trimmed response
equals the original prompt or has length at most 10 (otherwise the
whole trimmed response is returned by the final fallback). -/
theorem c7_no_marker_returns_original (response original_prompt : String)
    (hm : ∀ m ∈ improvedMarkers, strContains (pyStrip response) m = false)
    (hl : ∀ l ∈ pySplit (pyStrip response) "\n", (pyStrip l).length ≤ 20)
    (hfb : pyStrip response = original_prompt ∨ (pyStrip response).length ≤ 10) :
    extract_improved_prompt response original_prompt = original_prompt := by
  have hmark : tryMarkers (pyStrip response) improvedMarkers = none :=
    tryMarkers_none (pyStrip response) improvedMarkers hm
  have hfs : firstSubstantial
      (((pySplit (pyStrip response) "\n").map pyStrip).filter (fun l => l ≠ "")) = none := by
    apply firstSubstantial_none
    intro l' hl'
    have hl'' : l' ∈ (pySplit (pyStrip response) "\n").map pyStrip :=
      List.mem_of_mem_filter hl'
    obtain ⟨l, hlmem, rfl⟩ := List.mem_map.mp hl''
    exact hl l hlmem
  simp only [extract_improved_prompt, hmark, hfs]
  rcases hfb with h | h
  · simp [h]
  · have h10 : ¬ (10 < (pyStrip response).length) := by omega
    simp [h10]

/-- Witness for the amended C7 at a concrete short marker-free response. -/
theorem c7_no_marker_returns_original_witness :
    extract_improved_prompt "ok" "ok" = "ok" :=
  c7_no_marker_returns_original "ok" "ok" (by decide) (by decide) (Or.inl rfl)

/-- A capture that survives the accept test is non-empty. -/
theorem acceptMatch_ne (g : Option String) (t : String)
    (h : acceptMatch g = some t) : t ≠ "" := by
  cases g with
  | none => simp [acceptMatch] at h
  | some captured =>
    simp only [acceptMatch] at h
    split at h
    case isTrue hcond =>
      cases h
      simp only [Bool.and_eq_true, decide_eq_true_eq] at hcond
      exact hcond.1
    case isFalse hcond => cases h

/-- A variant produced by the pattern cascade is non-empty. -/
theorem lineVariantPick_ne (line t : String)
    (h : lineVariantPick line = some t) : t ≠ "" := by
  simp only [lineVariantPick] at h
  cases h1 : acceptMatch (matchNumbered line) with
  | some u => rw [h1] at h; cases h; exact acceptMatch_ne _ _ h1
  | none =>
    rw [h1] at h
    cases h2 : acceptMatch (matchBullet '-' line) with
    | some u => rw [h2] at h; cases h; exact acceptMatch_ne _ _ h2
    | none => rw [h2] at h; exact acceptMatch_ne _ _ h

/-- The pattern pass only ever appends non-empty variants. -/
theorem collectPatternVariants_ne (ls : List String) :
    ∀ acc, (∀ v ∈ acc, v ≠ "") →
      ∀ v ∈ collectPatternVariants ls acc, v ≠ "" := by
  induction ls with
  | nil => intro acc h v hv; exact h v hv
  | cons l rest ih =>
    intro acc h v hv
    simp only [collectPatternVariants] at hv
    split at hv
    · exact ih acc h v hv
    · cases hpick : lineVariantPick (pyStrip l) with
      | none => rw [hpick] at hv; exact ih acc h v hv
      | some t =>
        rw [hpick] at hv
        refine ih (acc ++ [t]) ?_ v hv
        intro w hw
        rcases List.mem_append.mp hw with hw | hw
        · exact h w hw
        · have hwt : w = t := by simpa using hw
          subst hwt
          exact lineVariantPick_ne _ _ hpick

/-- The fallback pass only ever appends non-empty lines. -/
theorem fallbackCollect_ne (ls : List String) :
    ∀ acc, (∀ v ∈ acc, v ≠ "") →
      ∀ v ∈ fallbackCollect acc ls, v ≠ "" := by
  induction ls with
  | nil => intro acc h v hv; exact h v hv
  | cons l rest ih =>
    intro acc h v hv
    simp only [fallbackCollect] at hv
    split at hv
    case isTrue hcond =>
      refine ih (acc ++ [pyStrip l]) ?_ v hv
      intro w hw
      rcases List.mem_append.mp hw with hw | hw
      · exact h w hw
      · have hwl : w = pyStrip l := by simpa using hw
        subst hwl
        simp only [Bool.and_eq_true, decide_eq_true_eq] at hcond
        exact hcond.1.1.1
    case isFalse _ => exact ih acc h v hv

/-- The two invariants of `_extract_variants`: the result respects the
requested bound and contains no empty string. -/
theorem extract_variants_props (response : String) (n : Nat) :
    (extract_variants response n).length ≤ n
    ∧ ∀ v ∈ extract_variants response n, v ≠ "" := by
  have key : ∀ vs : List String, (∀ v ∈ vs, v ≠ "") →
      ((if vs.isEmpty then ([] : List String) else vs.take n).length ≤ n
       ∧ ∀ v ∈ (if vs.isEmpty then ([] : List String) else vs.take n), v ≠ "") := by
    intro vs hvs
    by_cases h : vs.isEmpty
    · simp [h]
    · simp only [h, if_false, Bool.false_eq_true]
      constructor
      · simp [List.length_take]
      · intro v hv
        exact hvs v (List.take_subset n vs hv)
  have h2 : ∀ sec v, v ∈ (if (collectPatternVariants (pySplit sec "\n") []).length < n
      then fallbackCollect (collectPatternVariants (pySplit sec "\n") []) (pySplit sec "\n")
      else collectPatternVariants (pySplit sec "\n") []) → v ≠ "" := by
    intro sec v hv
    split at hv
    · exact fallbackCollect_ne _ _ (collectPatternVariants_ne _ [] (by simp)) v hv
    · exact collectPatternVariants_ne _ [] (by simp) v hv
  simp only [extract_variants]
  apply key
  exact fun v hv => h2 _ v hv

/-- A response containing three parseable numbered variants. -/
def threeVariantsResp : String :=
  "1. Alpha variant one\n2. Beta variant two\n3. Gamma variant three"

/-- C8: for every response text and requested bound, variant extraction
returns at most the requested number of variants and never an empty
string; and with bound 2 against a response carrying three parseable
numbered variants, the result has length exactly 2. -/
theorem c8_variant_bound :
    (∀ (response : String) (num_variants : Nat),
      (extract_variants response num_variants).length ≤ num_variants
      ∧ ∀ v ∈ extract_variants response num_variants, v ≠ "")
    ∧ (extract_variants threeVariantsResp 2).length = 2 :=
  ⟨fun response num_variants => extract_variants_props response num_variants, rfl⟩

/-- Witness for C8 at a concrete response, bound and member. -/
theorem c8_variant_bound_witness :
    (extract_variants threeVariantsResp 1).length ≤ 1
    ∧ ("Alpha variant one" : String) ≠ "" :=
  ⟨(c8_variant_bound.1 threeVariantsResp 1).1,
   (c8_variant_bound.1 threeVariantsResp 2).2 "Alpha variant one" (by decide)⟩

/-- C10: `generate_variants` silently coerces the requested count into
`[2, 3]` before the request is built and the response parsed — below 2
behaves as 2, above 3 behaves as 3 — so the returned list never has
more than 3 elements regardless of the caller's argument. -/
theorem c10_variant_count_clamped :
    (∀ n : Int, 2 ≤ generate_variants_clamp n ∧ generate_variants_clamp n ≤ 3)
    ∧ (∀ n : Int, n < 2 → generate_variants_clamp n = 2)
    ∧ (∀ n : Int, 3 < n → generate_variants_clamp n = 3)
    ∧ (∀ (original_prompt : String) (respond : String → String) (n : Int),
        (generate_variants_model original_prompt respond n).length ≤ 3) := by
  have hclamp : ∀ n : Int, 2 ≤ generate_variants_clamp n ∧ generate_variants_clamp n ≤ 3 := by
    intro n
    unfold generate_variants_clamp
    split_ifs <;> omega
  refine ⟨hclamp, ?_, ?_, ?_⟩
  · intro n h
    simp [generate_variants_clamp, h]
  · intro n h
    unfold generate_variants_clamp
    rw [if_neg (by omega), if_pos h]
  · intro original_prompt respond n
    unfold generate_variants_model
    have h1 := (extract_variants_props
      (respond (create_variants_prompt original_prompt (generate_variants_clamp n)))
      (generate_variants_clamp n).toNat).1
    have h2 : (generate_variants_clamp n).toNat ≤ 3 := by
      have := hclamp n
      omega
    exact le_trans h1 h2

/-- Witness for C10 at concrete out-of-range counts. -/
theorem c10_variant_count_clamped_witness :
    generate_variants_clamp 0 = 2
    ∧ generate_variants_clamp 7 = 3
    ∧ (generate_variants_model "p" (fun _ => threeVariantsResp) 7).length ≤ 3 :=
  ⟨c10_variant_count_clamped.2.1 0 (by decide),
   c10_variant_count_clamped.2.2.1 7 (by decide),
   c10_variant_count_clamped.2.2.2 "p" (fun _ => threeVariantsResp) 7⟩

/-- A successful object lookup makes the corresponding `any` scan true. -/
theorem objFind_any_true (fs : List (String × Json)) (k : String) (v : Json)
    (h : objFind fs k = some v) : fs.any (fun kv => kv.1 == k) = true := by
  unfold objFind at h
  obtain ⟨kv, hkv⟩ : ∃ kv, fs.find? (fun kv => kv.1 == k) = some kv := by
    cases hf : fs.find? (fun kv => kv.1 == k) with
    | none => rw [hf] at h; simp at h
    | some kv => exact ⟨kv, rfl⟩
  have hmem := List.mem_of_find?_eq_some hkv
  have hp := List.find?_some hkv
  rw [List.any_eq_true]
  exact ⟨kv, hmem, hp⟩

/-- A failed object lookup makes the corresponding `any` scan false. -/
theorem objFind_none_any (fs : List (String × Json)) (k : String)
    (h : objFind fs k = none) : fs.any (fun kv => kv.1 == k) = false := by
  unfold objFind at h
  cases hf : fs.find? (fun kv => kv.1 == k) with
  | some kv => rw [hf] at h; simp at h
  | none =>
    rw [List.any_eq_false]
    intro kv hkv
    exact List.find?_eq_none.mp hf kv hkv

/-- C9: client (dialect) selection is case-insensitive substring
matching on the base URL in the order openrouter, openai /
api.openai.com, deepseek, groq, defaulting to the OpenAI-compatible
client when nothing matches; and on a classified success the selected
client returns `choices[0].message.content`, while a success body whose
`choices` key is absent, or bound to an empty array, raises the
"Неверный формат ответа от API" / "Invalid response format from API"
`APIError` (the spec's "unexpected response shape"). -/
theorem c9_dialect_selection_and_extraction :
    (∀ m : Model,
      (strContains (pyLower m.api_url) "openrouter" = true →
        create_api_client_kind m = .openRouter)
      ∧ (strContains (pyLower m.api_url) "openrouter" = false →
         (strContains (pyLower m.api_url) "openai" ||
          strContains (pyLower m.api_url) "api.openai.com") = true →
         create_api_client_kind m = .openAI)
      ∧ (strContains (pyLower m.api_url) "openrouter" = false →
         (strContains (pyLower m.api_url) "openai" ||
          strContains (pyLower m.api_url) "api.openai.com") = false →
         strContains (pyLower m.api_url) "deepseek" = true →
         create_api_client_kind m = .deepSeek)
      ∧ (strContains (pyLower m.api_url) "openrouter" = false →
         (strContains (pyLower m.api_url) "openai" ||
          strContains (pyLower m.api_url) "api.openai.com") = false →
         strContains (pyLower m.api_url) "deepseek" = false →
         strContains (pyLower m.api_url) "groq" = true →
         create_api_client_kind m = .groq)
      ∧ (strContains (pyLower m.api_url) "openrouter" = false →
         (strContains (pyLower m.api_url) "openai" ||
          strContains (pyLower m.api_url) "api.openai.com") = false →
         strContains (pyLower m.api_url) "deepseek" = false →
         strContains (pyLower m.api_url) "groq" = false →
         create_api_client_kind m = .openAI))
    ∧ (∀ (em : String) (fs : List (String × Json)) (c0 : Json) (cs : List Json)
         (mv v : Json),
        objFind fs "choices" = some (.arr (c0 :: cs)) →
        pyIndexStr c0 "message" = .ok mv →
        pyIndexStr mv "content" = .ok v →
        parse_chat_response em (.obj fs) = .ok v)
    ∧ (∀ (em : String) (fs : List (String × Json)),
        objFind fs "choices" = none →
        parse_chat_response em (.obj fs) = .error (.apiError em))
    ∧ (∀ (em : String) (fs : List (String × Json)),
        objFind fs "choices" = some (.arr []) →
        parse_chat_response em (.obj fs) = .error (.apiError em))
    ∧ (∀ (kind : ClientKind) (api_key : String) (m : Model) (prompt : String)
         (orc : NetOracle) (t r : Nat) (d v : Json),
        make_request_result m.api_url (clientHeaders kind api_key)
            (chatPayload m.model_id prompt) orc r t = .ok d →
        parse_chat_response (clientInvalidMsg kind) d = .ok v →
        send_request kind api_key m prompt orc t r = .ok v) := by
  refine ⟨?_, ?_, ?_, ?_, ?_⟩
  · intro m
    refine ⟨?_, ?_, ?_, ?_, ?_⟩
    · intro h1
      simp [create_api_client_kind, h1]
    · intro h1 h2
      simp [create_api_client_kind, h1, h2]
    · intro h1 h2 h3
      simp [create_api_client_kind, h1, h2, h3]
    · intro h1 h2 h3 h4
      simp [create_api_client_kind, h1, h2, h3, h4]
    · intro h1 h2 h3 h4
      simp [create_api_client_kind, h1, h2, h3, h4]
  · intro em fs c0 cs mv v h1 h2 h3
    have hany := objFind_any_true fs "choices" _ h1
    have hidx : pyIndexStr (.obj fs) "choices" = .ok (.arr (c0 :: cs)) := by
      simp [pyIndexStr, h1]
    simp only [parse_chat_response, pyInJson, hany, if_true, hidx, pyLen,
      List.length_cons, Nat.zero_lt_succ, decide_true_eq_true, decide_eq_true_eq,
      pyIndexNat, List.get?, h2, h3]
  · intro em fs h1
    have hany := objFind_none_any fs "choices" h1
    simp [parse_chat_response, pyInJson, hany]
  · intro em fs h1
    have hany := objFind_any_true fs "choices" _ h1
    simp [parse_chat_response, pyInJson, hany, pyIndexStr, h1, pyLen]
  · intro kind api_key m prompt orc t r d v h1 h2
    simp only [send_request, h1, h2]

/-- A well-shaped success body. -/
def dGood : Json :=
  .obj [("choices", .arr [.obj [("message", .obj [("content", .str "hello")])]])]

/-- A DeepSeek-style provider descriptor. -/
def mDeep : Model :=
  ⟨1, "ds", "deepseek-chat", "https://api.deepseek.com/v1/chat/completions",
   "DEEPSEEK_API_KEY", 1⟩

/-- Witness for C9 at concrete URLs and response bodies. -/
theorem c9_dialect_selection_and_extraction_witness :
    create_api_client_kind mDeep = .deepSeek
    ∧ parse_chat_response "Неверный формат ответа от API" dGood = .ok (.str "hello")
    ∧ parse_chat_response "Неверный формат ответа от API" (.obj [("id", .str "x")]) =
        .error (.apiError "Неверный формат ответа от API")
    ∧ parse_chat_response "Invalid response format from API" (.obj [("choices", .arr [])]) =
        .error (.apiError "Invalid response format from API") :=
  ⟨((c9_dialect_selection_and_extraction.1 mDeep).2.2.1 (by decide) (by decide) (by decide)),
   (c9_dialect_selection_and_extraction.2.1 "Неверный формат ответа от API"
     [("choices", .arr [.obj [("message", .obj [("content", .str "hello")])]])]
     (.obj [("message", .obj [("content", .str "hello")])]) []
     (.obj [("content", .str "hello")]) (.str "hello") rfl rfl rfl),
   (c9_dialect_selection_and_extraction.2.2.1 "Неверный формат ответа от API"
     [("id", .str "x")] rfl),
   (c9_dialect_selection_and_extraction.2.2.2.1 "Invalid response format from API"
     [("choices", .arr [])] rfl)⟩

/-- Closed form of the dispatcher loop: outcomes are the pointwise image
of the batch and progress counts ascend one by one from `idx + 1`. -/
theorem worker_run_go_spec (env : EnvStore) (prompt : String) (t r total : Nat) :
    ∀ (batch : List (Model × NetOracle)) (idx : Nat),
      worker_run_go env prompt t r total batch idx =
        (batch.map (outcomeOf env prompt t r),
         (List.range' (idx + 1) batch.length).map (fun c => (c, total))) := by
  intro batch
  induction batch with
  | nil => intro idx; rfl
  | cons pr rest ih =>
    intro idx
    show (outcomeOf env prompt t r pr :: (worker_run_go env prompt t r total rest (idx + 1)).1,
          (idx + 1, total) :: (worker_run_go env prompt t r total rest (idx + 1)).2) = _
    rw [ih (idx + 1)]
    rfl

/-- C1: for every batch of N provider descriptors the dispatcher emits
exactly N outcomes, one per provider in submission order, each carrying
its own provider's id, display name and credential name; the outcome at
each position is a pure function of that provider alone (so one
provider's failure — `APIError`, `ValueError`, or anything else, all of
which `worker_outcome_text` converts into error text — cannot affect a
sibling's outcome); and the progress pairs are exactly
`(1, N), (2, N), …, (N, N)`. -/
theorem c1_dispatch_outcomes (env : EnvStore) (prompt : String) (t r : Nat)
    (batch : List (Model × NetOracle)) :
    ((worker_run env prompt t r batch).1).length = batch.length
    ∧ (∀ i, (((worker_run env prompt t r batch).1).get? i).map
          (fun o => (o.model_id, o.model_name, o.api_id))
        = (batch.get? i).map (fun pr => (pr.1.id, pr.1.name, pr.1.api_id)))
    ∧ (∀ i pr, batch.get? i = some pr →
        ((worker_run env prompt t r batch).1).get? i =
          some (outcomeOf env prompt t r pr))
    ∧ (worker_run env prompt t r batch).2 =
        (List.range' 1 batch.length).map (fun c => (c, batch.length)) := by
  have h := worker_run_go_spec env prompt t r batch.length batch 0
  refine ⟨?_, ?_, ?_, ?_⟩
  · rw [worker_run, h]
    exact List.length_map batch (outcomeOf env prompt t r)
  · intro i
    rw [worker_run, h]
    cases hb : batch.get? i with
    | none =>
      have : (batch.map (outcomeOf env prompt t r)).get? i = none := by
        rw [List.get?_map, hb]; rfl
      rw [this]; rfl
    | some pr =>
      have : (batch.map (outcomeOf env prompt t r)).get? i =
          some (outcomeOf env prompt t r pr) := by
        rw [List.get?_map, hb]; rfl
      rw [this]; rfl
  · intro i pr hb
    rw [worker_run, h]
    rw [List.get?_map, hb]
    rfl
  · rw [worker_run, h]

/-- Witness for C1's pointwise conjunct at a concrete two-provider
batch (one provider with a missing credential, evaluated to its
configuration-error outcome). -/
theorem c1_dispatch_outcomes_witness :
    (worker_run (fun _ => none) "p" 30 3 [(mDeep, orc429), (mDeep, orcMal)]).1.get? 0 =
      some ⟨1, "ds", "DEEPSEEK_API_KEY",
        "Ошибка конфигурации: API key not found for DEEPSEEK_API_KEY"⟩ :=
  ((c1_dispatch_outcomes (fun _ => none) "p" 30 3
    [(mDeep, orc429), (mDeep, orcMal)]).2.2.1 0 (mDeep, orc429) rfl).trans rfl

/-- C4: a provider whose credential name resolves to nothing in the
ambient secret store makes client construction fail immediately with a
`ValueError` naming the offending credential — a kind distinct from the
`APIError` all network failures use; the failure does not depend on the
network oracle, the timeout or the retry budget (it is never retried);
and in a dispatch batch it produces exactly the configuration-error
outcome for that provider, while every provider of the batch still
reports its own independently computed outcome. -/
theorem c4_missing_credential (env : EnvStore) (m : Model) (prompt : String)
    (t r : Nat) (batch : List (Model × NetOracle)) (i : Nat) (orc : NetOracle)
    (hmiss : env m.api_id = none)
    (hbatch : batch.get? i = some (m, orc)) :
    clientInit env m = .error (.valueError ("API key not found for " ++ m.api_id))
    ∧ (∀ (orc' : NetOracle) (t' r' : Nat),
        send_prompt_to_model env m prompt orc' t' r' =
          .error (.valueError ("API key not found for " ++ m.api_id)))
    ∧ ((worker_run env prompt t r batch).1).get? i =
        some ⟨m.id, m.name, m.api_id,
          "Ошибка конфигурации: " ++ ("API key not found for " ++ m.api_id)⟩
    ∧ ((worker_run env prompt t r batch).1).length = batch.length
    ∧ (∀ j pr, batch.get? j = some pr →
        ((worker_run env prompt t r batch).1).get? j =
          some (outcomeOf env prompt t r pr)) := by
  have hci : clientInit env m = .error (.valueError ("API key not found for " ++ m.api_id)) := by
    simp [clientInit, hmiss]
  have hsend : ∀ (orc' : NetOracle) (t' r' : Nat),
      send_prompt_to_model env m prompt orc' t' r' =
        .error (.valueError ("API key not found for " ++ m.api_id)) := by
    intro orc' t' r'
    simp [send_prompt_to_model, hci]
  have h := worker_run_go_spec env prompt t r batch.length batch 0
  refine ⟨hci, hsend, ?_, ?_, ?_⟩
  · rw [worker_run, h, List.get?_map, hbatch]
    simp [outcomeOf, hsend, worker_outcome_text, pyErrStr]
  · rw [worker_run, h]
    exact List.length_map batch (outcomeOf env prompt t r)
  · intro j pr hb
    rw [worker_run, h, List.get?_map, hb]
    rfl

/-- Witness for C4 at a concrete two-provider batch whose secret store
holds a key only for the second provider. -/
theorem c4_missing_credential_witness :
    (worker_run (fun k => if k = "GROQ_API_KEY" then some "sk-1" else none)
        "p" 30 3 [(mDeep, orc429), (⟨2, "gq", "llama", "https://api.groq.com/v1", "GROQ_API_KEY", 1⟩, orc429)]).1.get? 0 =
      some ⟨1, "ds", "DEEPSEEK_API_KEY",
        "Ошибка конфигурации: " ++ ("API key not found for " ++ "DEEPSEEK_API_KEY")⟩ :=
  (c4_missing_credential (fun k => if k = "GROQ_API_KEY" then some "sk-1" else none)
    mDeep "p" 30 3
    [(mDeep, orc429), (⟨2, "gq", "llama", "https://api.groq.com/v1", "GROQ_API_KEY", 1⟩, orc429)]
    0 orc429 rfl rfl).2.2.1
